import Mathlib

/-!
Verification development for the Agentic Honey-Pot repository.

The JavaScript sources are shallowly embedded as executable Lean
definitions.  Conventions used throughout:

* JS numbers are modelled by `ℚ` (exact rational arithmetic) where real
  arithmetic occurs, and by `Nat` for integral counters and millisecond
  timestamps.
* A JS `Set` built by repeated `add` and read back with `Array.from`
  (or `[...new Set(xs)]`) is modelled by `jsDedup`, which keeps the first
  occurrence of every element in insertion order.
* The JS regex engine and the `URL` constructor are primitives that have
  no faithful pure model; they are abstracted as a `Matcher` record of
  candidate-producing functions, one per artifact category, supplied as a
  parameter.  Every post-processing step (normalisation, validation,
  masking, deduplication, scoring) is translated from the source.
  Theorems quantify over all matchers, hence hold for the real regexes.
* Wall-clock timestamps (`Date.now()`, ISO strings) are millisecond `Nat`
  values passed explicitly; nondeterministic `extractedAt` fields are not
  modelled.
-/

namespace Honeypot

/-! ## JS `Set` insertion-order deduplication -/

/-- Model of `[...new Set(l)]`: keep the first occurrence of each element,
in insertion order.  `seen` accumulates the elements already emitted. -/
def jsDedupAux {α : Type} [DecidableEq α] (seen : List α) : List α → List α
  | [] => []
  | x :: xs => if x ∈ seen then jsDedupAux seen xs else x :: jsDedupAux (x :: seen) xs

/-- Model of `[...new Set(l)]` (JS `Set` preserves insertion order). -/
def jsDedup {α : Type} [DecidableEq α] (l : List α) : List α :=
  jsDedupAux [] l

/-! ## String helpers shared by the embedded modules -/

/-- Model of JS `hay.includes(needle)` (substring containment). -/
def jsIncludes (hay needle : String) : Bool :=
  hay.data.tails.any fun t => needle.data.isPrefixOf t

/-- Model of JS `.toLowerCase()` (character-wise; the texts the embedded
code inspects are ASCII). -/
def jsToLower (s : String) : String :=
  ⟨s.data.map Char.toLower⟩

/-- Model of JS `.toUpperCase()` (character-wise). -/
def jsToUpper (s : String) : String :=
  ⟨s.data.map Char.toUpper⟩

/-- Model of JS `.trim()`: drop leading and trailing whitespace. -/
def jsTrim (s : String) : String :=
  ⟨((s.data.dropWhile Char.isWhitespace).reverse.dropWhile Char.isWhitespace).reverse⟩

/-- Model of `.replace(/\s/g, '')`. -/
def stripWhitespace (s : String) : String :=
  ⟨s.data.filter fun c => !c.isWhitespace⟩

/-- Model of `.replace(/[\s-]/g, '')`. -/
def stripSpaceDash (s : String) : String :=
  ⟨s.data.filter fun c => !(c.isWhitespace || c == '-')⟩

/-- Model of JS `data.slice(-4)`: the last four characters (the whole
string when it is shorter than four characters). -/
def sliceLast4 (s : String) : String :=
  ⟨s.data.drop (s.data.length - 4)⟩

/-- Model of JS `Math.round` on a nonnegative rational: round half up. -/
def jsRound (q : ℚ) : Nat :=
  (Int.floor (q + 1/2)).toNat

/-! ## Data model: messages and intelligence
(`src/core/SessionManager.js`, `src/core/IntelligenceExtractor.js`) -/

/-- A conversation message (`{sender, text, timestamp}`); timestamps are
milliseconds. -/
structure Message where
  sender : String
  text : String
  timestamp : Nat
  deriving DecidableEq, Repr

/-- Extracted intelligence: one deduplicated list per artifact category
plus the derived risk score (`IntelligenceExtractor.getEmptyIntelligence`
lists the fields).  The nondeterministic `extractedAt` timestamp is not
modelled. -/
structure Intelligence where
  bankAccounts : List String
  upiIds : List String
  phoneNumbers : List String
  phishingLinks : List String
  emails : List String
  cardNumbers : List String
  ifscCodes : List String
  suspiciousKeywords : List String
  credentialRequests : List String
  riskScore : Nat
  deriving DecidableEq, Repr

/-- `IntelligenceExtractor.getEmptyIntelligence`: every category empty and
`riskScore: 0`. -/
def getEmptyIntelligence : Intelligence :=
  { bankAccounts := []
    upiIds := []
    phoneNumbers := []
    phishingLinks := []
    emails := []
    cardNumbers := []
    ifscCodes := []
    suspiciousKeywords := []
    credentialRequests := []
    riskScore := 0 }

/-! ## IntelligenceExtractor (`src/core/IntelligenceExtractor.js`) -/

/-- Abstraction of the JS regex engine and `URL` constructor used by
`IntelligenceExtractor`: for each artifact category, the raw candidate
strings produced by `matchAll`/`match` over all patterns of that category
(each candidate being `match[1] || match[0]`), in document order; plus the
`new URL(...)` validity test behind `isValidURL`. -/
structure Matcher where
  bankMatches : String → List String
  upiMatches : String → List String
  phoneMatches : String → List String
  urlMatches : String → List String
  emailMatches : String → List String
  cardMatches : String → List String
  ifscMatches : String → List String
  urlValid : String → Bool

/-- Validation `/^\d{9,18}$/` applied to a candidate account number. -/
def isAccountShape (s : String) : Bool :=
  s.data.all Char.isDigit && decide (9 ≤ s.length) && decide (s.length ≤ 18)

/-- `maskSensitiveData`: mask account and card values to the last four
digits; any other type is returned unchanged. -/
def maskSensitiveData (data ty : String) : String :=
  if ty = "account" then "XXXX-XXXX-" ++ sliceLast4 data
  else if ty = "card" then "XXXX-XXXX-XXXX-" ++ sliceLast4 data
  else data

/-- `extractBankAccounts`: strip whitespace, validate 9-18 digits, mask,
deduplicate via a `Set`. -/
def extractBankAccounts (m : Matcher) (text : String) : List String :=
  jsDedup ((m.bankMatches text).filterMap fun raw =>
    let account := stripWhitespace raw
    if isAccountShape account then some (maskSensitiveData account "account") else none)

/-- A word character of the JS `\w` class. -/
def isWordChar (c : Char) : Bool :=
  c.isAlphanum || c == '_'

/-- Validation `/^[\w.-]+@[\w]+$/` applied to a candidate UPI id. -/
def isUpiShape (s : String) : Bool :=
  match s.splitOn "@" with
  | [localPart, domain] =>
      !localPart.isEmpty && localPart.data.all (fun c => isWordChar c || c == '.' || c == '-') &&
      !domain.isEmpty && domain.data.all isWordChar
  | _ => false

/-- `extractUPIIds`: lower-case, trim, validate the UPI shape, deduplicate. -/
def extractUPIIds (m : Matcher) (text : String) : List String :=
  jsDedup ((m.upiMatches text).filterMap fun raw =>
    let upi := jsTrim (jsToLower raw)
    if isUpiShape upi then some upi else none)

/-- Validation `/^(\+91)?[6-9]\d{9}$/` applied to a candidate phone number. -/
def isPhoneShape (s : String) : Bool :=
  let core := if s.startsWith "+91" then s.drop 3 else s
  decide (core.length = 10) && core.data.all Char.isDigit &&
    (match core.data with
     | c :: _ => decide ('6' ≤ c) && decide (c ≤ '9')
     | [] => false)

/-- `extractPhoneNumbers`: strip spaces and dashes, validate the Indian
mobile shape, normalise to a `+91` prefix, deduplicate. -/
def extractPhoneNumbers (m : Matcher) (text : String) : List String :=
  jsDedup ((m.phoneMatches text).filterMap fun raw =>
    let phone := stripSpaceDash raw
    if isPhoneShape phone then
      some (if phone.startsWith "+91" then phone else "+91" ++ phone)
    else none)

/-- `extractURLs`: lower-case, trim, keep candidates accepted by the URL
parser (`isValidURL`, abstracted in the matcher), deduplicate. -/
def extractURLs (m : Matcher) (text : String) : List String :=
  jsDedup ((m.urlMatches text).filterMap fun raw =>
    let url := jsTrim (jsToLower raw)
    if m.urlValid url then some url else none)

/-- `extractEmails`: lower-case every regex match, deduplicate. -/
def extractEmails (m : Matcher) (text : String) : List String :=
  jsDedup ((m.emailMatches text).map jsToLower)

/-- The running Luhn sum of `validateLuhn`, processed from the last digit
backwards; `isEven` starts `false` and flips each step, doubling (and
casting out nines) on the `true` positions. -/
def luhnAux : List Char → Bool → Nat
  | [], _ => 0
  | c :: rest, isEven =>
      let digit := c.toNat - 48
      let d := if isEven then (if digit * 2 > 9 then digit * 2 - 9 else digit * 2) else digit
      d + luhnAux rest (!isEven)

/-- `validateLuhn`: 13-19 digits whose Luhn checksum is divisible by 10. -/
def validateLuhn (cardNumber : String) : Bool :=
  if !(cardNumber.data.all Char.isDigit &&
       decide (13 ≤ cardNumber.length) && decide (cardNumber.length ≤ 19)) then
    false
  else
    luhnAux cardNumber.data.reverse false % 10 == 0

/-- `extractCardNumbers`: strip spaces and dashes, validate by the Luhn
algorithm, mask, deduplicate. -/
def extractCardNumbers (m : Matcher) (text : String) : List String :=
  jsDedup ((m.cardMatches text).filterMap fun raw =>
    let card := stripSpaceDash raw
    if validateLuhn card then some (maskSensitiveData card "card") else none)

/-- `extractIFSCCodes`: upper-case every match, deduplicate. -/
def extractIFSCCodes (m : Matcher) (text : String) : List String :=
  jsDedup ((m.ifscMatches text).map jsToUpper)

/-- The fixed `suspiciousKeywords` vocabulary from `initializePatterns`. -/
def suspiciousKeywordsList : List String :=
  ["urgent", "immediately", "now", "today", "asap", "hurry", "quick",
   "verify", "verification", "confirm", "validate", "update",
   "block", "suspend", "close", "terminate", "deactivate",
   "account", "bank", "upi", "payment", "transfer",
   "otp", "password", "pin", "cvv", "card details",
   "kyc", "pan", "aadhaar", "document",
   "win", "winner", "prize", "lottery", "lucky",
   "free", "offer", "discount", "cashback", "reward",
   "click", "link", "website", "portal", "login",
   "download", "install", "app", "apk",
   "customer care", "helpline", "support", "service center"]

/-- `extractSuspiciousKeywords`: presence test of each vocabulary word in
the lower-cased text, deduplicated. -/
def extractSuspiciousKeywords (text : String) : List String :=
  jsDedup (suspiciousKeywordsList.filter fun keyword => jsIncludes (jsToLower text) keyword)

/-- The `credentialTypes` table of `detectCredentialRequests`. -/
def credentialTypes : List (String × List String) :=
  [("otp", ["otp", "one time password", "verification code"]),
   ("password", ["password", "login password", "net banking password"]),
   ("pin", ["pin", "atm pin", "card pin"]),
   ("cvv", ["cvv", "cvv2", "card verification"]),
   ("card_number", ["card number", "debit card", "credit card number"])]

/-- `detectCredentialRequests`: record each credential type any of whose
phrases occurs in the lower-cased text, deduplicated. -/
def detectCredentialRequests (text : String) : List String :=
  jsDedup ((credentialTypes.filter fun tp =>
    tp.2.any fun p => jsIncludes (jsToLower text) p).map Prod.fst)

/-- `calculateRiskScore`: weighted per-category contributions
`min(count x weight, weight x 3)` summed, then `min(round(score x 100), 100)`.
Only the category lists are read, never a previously computed score. -/
def calculateRiskScore (intelligence : Intelligence) : Nat :=
  let contrib := fun (len : Nat) (w : ℚ) =>
    if 0 < len then min ((len : ℚ) * w) (w * 3) else 0
  let score : ℚ :=
    contrib intelligence.bankAccounts.length (15/100) +
    contrib intelligence.upiIds.length (15/100) +
    contrib intelligence.phoneNumbers.length (10/100) +
    contrib intelligence.phishingLinks.length (20/100) +
    contrib intelligence.emails.length (5/100) +
    contrib intelligence.cardNumbers.length (20/100) +
    contrib intelligence.ifscCodes.length (10/100) +
    contrib intelligence.suspiciousKeywords.length (5/100) +
    contrib intelligence.credentialRequests.length (25/100)
  min (jsRound (score * 100)) 100

/-- The `allText` of `extract`: texts of scammer-authored messages joined
with single spaces. -/
def joinScammerText (messages : List Message) : String :=
  String.intercalate " " ((messages.filter fun msg => msg.sender == "scammer").map Message.text)

/-- `IntelligenceExtractor.extract`: guard on an empty message list and on
empty (falsy) joined scammer text, then run every category extractor over
the joined text and attach the computed risk score. -/
def extract (m : Matcher) (messages : List Message) : Intelligence :=
  if messages.isEmpty then getEmptyIntelligence
  else
    let allText := joinScammerText messages
    if allText = "" then getEmptyIntelligence
    else
      let intelligence : Intelligence :=
        { bankAccounts := extractBankAccounts m allText
          upiIds := extractUPIIds m allText
          phoneNumbers := extractPhoneNumbers m allText
          phishingLinks := extractURLs m allText
          emails := extractEmails m allText
          cardNumbers := extractCardNumbers m allText
          ifscCodes := extractIFSCCodes m allText
          suspiciousKeywords := extractSuspiciousKeywords allText
          credentialRequests := detectCredentialRequests allText
          riskScore := 0 }
      { intelligence with riskScore := calculateRiskScore intelligence }

/-- `mergeIntelligence`: concatenate every category across the inputs into
an empty intelligence, deduplicate each category with a `Set`, then
recompute the risk score from the merged content. -/
def mergeIntelligence (intelligenceArray : List Intelligence) : Intelligence :=
  let pushed := intelligenceArray.foldl (fun acc intel =>
    { acc with
        bankAccounts := acc.bankAccounts ++ intel.bankAccounts
        upiIds := acc.upiIds ++ intel.upiIds
        phoneNumbers := acc.phoneNumbers ++ intel.phoneNumbers
        phishingLinks := acc.phishingLinks ++ intel.phishingLinks
        emails := acc.emails ++ intel.emails
        cardNumbers := acc.cardNumbers ++ intel.cardNumbers
        ifscCodes := acc.ifscCodes ++ intel.ifscCodes
        suspiciousKeywords := acc.suspiciousKeywords ++ intel.suspiciousKeywords
        credentialRequests := acc.credentialRequests ++ intel.credentialRequests })
    getEmptyIntelligence
  let merged :=
    { pushed with
        bankAccounts := jsDedup pushed.bankAccounts
        upiIds := jsDedup pushed.upiIds
        phoneNumbers := jsDedup pushed.phoneNumbers
        phishingLinks := jsDedup pushed.phishingLinks
        emails := jsDedup pushed.emails
        cardNumbers := jsDedup pushed.cardNumbers
        ifscCodes := jsDedup pushed.ifscCodes
        suspiciousKeywords := jsDedup pushed.suspiciousKeywords
        credentialRequests := jsDedup pushed.credentialRequests }
  { merged with riskScore := calculateRiskScore merged }

/-! ## ScamDetectionEngine (`src/core/ScamDetectionEngine.js`) -/

/-- Output of one signal detector: a bounded score and indicator tags. -/
structure DetectorResult where
  score : ℚ
  indicators : List String

/-- Combined detector output produced by `calculateCombinedScore`. -/
structure CombinedScore where
  score : ℚ
  indicators : List String

/-- `this.confidenceThreshold` set in the engine constructor. -/
def confidenceThreshold : ℚ := 65/100

/-- `calculateCombinedScore`: weighted sum of the four detector scores
(pattern 0.35, nlp 0.25, ml 0.25, context 0.15) clamped to 1, with the
indicator lists concatenated and deduplicated. -/
def calculateCombinedScore (pattern nlp ml context : DetectorResult) : CombinedScore :=
  { score := min
      (pattern.score * (35/100) + nlp.score * (25/100) +
       ml.score * (25/100) + context.score * (15/100)) 1
    indicators := jsDedup (pattern.indicators ++ nlp.indicators ++
      ml.indicators ++ context.indicators) }

/-- The classification line of `analyze`:
`isScam = combinedScore.score >= this.confidenceThreshold`. -/
def analyzeIsScam (pattern nlp ml context : DetectorResult) : Bool :=
  decide (confidenceThreshold ≤ (calculateCombinedScore pattern nlp ml context).score)

/-- `determineIntent`: first-match-wins keyword checks over the
lower-cased text, then the suspicious-URL indicator, else "suspicious". -/
def determineIntent (text : String) (indicators : List String) : String :=
  let t := jsToLower text
  if jsIncludes t "bank" && (jsIncludes t "block" || jsIncludes t "suspend") then
    "banking_fraud"
  else if jsIncludes t "upi" || jsIncludes t "payment" then
    "upi_fraud"
  else if jsIncludes t "otp" || jsIncludes t "password" || jsIncludes t "pin" then
    "phishing"
  else if jsIncludes t "win" || jsIncludes t "prize" || jsIncludes t "lottery" then
    "lottery_scam"
  else if jsIncludes t "job" || jsIncludes t "employment" || jsIncludes t "work from home" then
    "job_scam"
  else if jsIncludes t "kyc" || jsIncludes t "verify" || jsIncludes t "update" then
    "kyc_fraud"
  else if indicators.contains "suspicious_urls" then
    "phishing"
  else
    "suspicious"

/-- The intent assignment exactly as the specification sentence states it:
bank with block or suspend, then upi or payment, then otp, password or pin,
then win, prize or lottery, then job or employment, then kyc, verify or
update, then the suspicious-URL indicator, else the generic label.
Written from the spec's words, to be compared with `determineIntent`. -/
def specDetermineIntent (text : String) (indicators : List String) : String :=
  let t := jsToLower text
  if jsIncludes t "bank" && (jsIncludes t "block" || jsIncludes t "suspend") then
    "banking_fraud"
  else if jsIncludes t "upi" || jsIncludes t "payment" then
    "upi_fraud"
  else if jsIncludes t "otp" || jsIncludes t "password" || jsIncludes t "pin" then
    "phishing"
  else if jsIncludes t "win" || jsIncludes t "prize" || jsIncludes t "lottery" then
    "lottery_scam"
  else if jsIncludes t "job" || jsIncludes t "employment" then
    "job_scam"
  else if jsIncludes t "kyc" || jsIncludes t "verify" || jsIncludes t "update" then
    "kyc_fraud"
  else if indicators.contains "suspicious_urls" then
    "phishing"
  else
    "suspicious"

/-- The amended intent assignment: as the spec sentence, except that the
job-scam rule also fires on the phrase "work from home", which the source
includes as a third trigger. -/
def specDetermineIntentAmended (text : String) (indicators : List String) : String :=
  let t := jsToLower text
  if jsIncludes t "bank" && (jsIncludes t "block" || jsIncludes t "suspend") then
    "banking_fraud"
  else if jsIncludes t "upi" || jsIncludes t "payment" then
    "upi_fraud"
  else if jsIncludes t "otp" || jsIncludes t "password" || jsIncludes t "pin" then
    "phishing"
  else if jsIncludes t "win" || jsIncludes t "prize" || jsIncludes t "lottery" then
    "lottery_scam"
  else if jsIncludes t "job" || jsIncludes t "employment" || jsIncludes t "work from home" then
    "job_scam"
  else if jsIncludes t "kyc" || jsIncludes t "verify" || jsIncludes t "update" then
    "kyc_fraud"
  else if indicators.contains "suspicious_urls" then
    "phishing"
  else
    "suspicious"

/-! ## SessionManager (`src/core/SessionManager.js`) -/

/-- A `Session` as built by the `Session` constructor; timestamps are
milliseconds. -/
structure Session where
  id : String
  messages : List Message
  isAgentActive : Bool
  scamDetected : Bool
  intelligence : Intelligence
  createdAt : Nat
  lastActivity : Nat
  endedAt : Option Nat
  callbackSent : Bool
  deriving DecidableEq, Repr

/-- The `Session` constructor: empty log, agent inactive, no scam flag,
empty intelligence (the constructor's intelligence object carries no
`riskScore` property; the model uses 0), `callbackSent: false`. -/
def newSession (id : String) (now : Nat) : Session :=
  { id := id
    messages := []
    isAgentActive := false
    scamDetected := false
    intelligence := getEmptyIntelligence
    createdAt := now
    lastActivity := now
    endedAt := none
    callbackSent := false }

/-- `Session.addMessage`: append the message and refresh `lastActivity`. -/
def addMessage (s : Session) (msg : Message) (now : Nat) : Session :=
  { s with messages := s.messages ++ [msg], lastActivity := now }

/-- `Session.activateAgent`: set both flags. -/
def activateAgent (s : Session) : Session :=
  { s with isAgentActive := true, scamDetected := true }

/-- `Session.updateIntelligence`: per array-valued category, the stored
list becomes the deduplicated concatenation of old and new; non-array
fields (such as the extractor's `riskScore` number) are skipped. -/
def updateIntelligence (old newIntel : Intelligence) : Intelligence :=
  { bankAccounts := jsDedup (old.bankAccounts ++ newIntel.bankAccounts)
    upiIds := jsDedup (old.upiIds ++ newIntel.upiIds)
    phoneNumbers := jsDedup (old.phoneNumbers ++ newIntel.phoneNumbers)
    phishingLinks := jsDedup (old.phishingLinks ++ newIntel.phishingLinks)
    emails := jsDedup (old.emails ++ newIntel.emails)
    cardNumbers := jsDedup (old.cardNumbers ++ newIntel.cardNumbers)
    ifscCodes := jsDedup (old.ifscCodes ++ newIntel.ifscCodes)
    suspiciousKeywords := jsDedup (old.suspiciousKeywords ++ newIntel.suspiciousKeywords)
    credentialRequests := jsDedup (old.credentialRequests ++ newIntel.credentialRequests)
    riskScore := old.riskScore }

/-- `Session.end` as called from `SessionManager.closeSession`: record the
end time and deactivate the agent. -/
def endSession (s : Session) (now : Nat) : Session :=
  { s with endedAt := some now, isAgentActive := false }

/-! ## CallbackService (`src/services/CallbackService.js`) -/

/-- The retry configuration read in the `CallbackService` constructor. -/
structure CallbackConfig where
  maxRetries : Nat
  retryDelay : Nat
  deriving DecidableEq, Repr

/-- The constructor defaults: `CALLBACK_MAX_RETRIES || 3` attempts and
`CALLBACK_RETRY_DELAY || 1000` milliseconds between attempts. -/
def defaultCallbackConfig : CallbackConfig :=
  { maxRetries := 3, retryDelay := 1000 }

/-- The result object returned by `sendCallback` (success flag and the
reported `attempts` field). -/
structure SendResult where
  success : Bool
  attempts : Nat
  deriving DecidableEq, Repr

/-- The retry loop of `sendCallback`.  `tryAttempt n` abstracts the n-th
`axios.post`: `true` is a 2xx response, `false` any thrown error (non-2xx
or transport failure).  `fuel` counts the remaining iterations of
`for (attempt = 1; attempt <= maxRetries; attempt++)`.  Besides the
returned result object the model reports the number of delivery attempts
actually made and the list of inter-attempt delays slept (one
`delay(retryDelay)` per failed attempt with `attempt < maxRetries`). -/
def sendCallbackLoop (tryAttempt : Nat → Bool) (cfg : CallbackConfig) :
    Nat → Nat → SendResult × Nat × List Nat
  | _, 0 => ({ success := false, attempts := cfg.maxRetries }, 0, [])
  | attempt, fuel + 1 =>
      if tryAttempt attempt then
        ({ success := true, attempts := attempt }, 1, [])
      else
        let rest := sendCallbackLoop tryAttempt cfg (attempt + 1) fuel
        (rest.1, rest.2.1 + 1,
          (if attempt < cfg.maxRetries then [cfg.retryDelay] else []) ++ rest.2.2)

/-- `sendCallback`: run the retry loop from attempt 1; on exhaustion the
code falls through to the failed-result return (no exception escapes). -/
def sendCallback (tryAttempt : Nat → Bool) (cfg : CallbackConfig) :
    SendResult × Nat × List Nat :=
  sendCallbackLoop tryAttempt cfg 1 cfg.maxRetries

/-- `validateSessionData`: collect the error strings in source order
(`!session.id` is the JS falsiness of an empty identifier). -/
def validateSessionData (s : Session) : List String :=
  (if s.id = "" then ["Session ID is required"] else []) ++
  (if s.scamDetected = false then ["Scam must be detected to send callback"] else []) ++
  (if s.messages.length = 0 then ["Session must have at least one message"] else [])

/-- The payload built by `CallbackService.buildPayload` (the
`agentNotes` string contains only tactic names, counts and duration text,
never artifact values, and is not modelled). -/
structure CallbackPayload where
  sessionId : String
  scamDetected : Bool
  totalMessagesExchanged : Nat
  bankAccounts : List String
  upiIds : List String
  phishingLinks : List String
  phoneNumbers : List String
  suspiciousKeywords : List String
  deriving DecidableEq, Repr

/-- `buildPayload`: project the session onto the callback payload
(`scamDetected: session.scamDetected || true` is the source expression). -/
def buildPayload (s : Session) : CallbackPayload :=
  { sessionId := s.id
    scamDetected := s.scamDetected || true
    totalMessagesExchanged := s.messages.length
    bankAccounts := s.intelligence.bankAccounts
    upiIds := s.intelligence.upiIds
    phishingLinks := s.intelligence.phishingLinks
    phoneNumbers := s.intelligence.phoneNumbers
    suspiciousKeywords := s.intelligence.suspiciousKeywords }

/-- Result of `sendValidatedCallback`: either the non-retryable validation
failure object, or the delivery outcome with its attempt trace. -/
inductive ValidatedCallbackResult where
  | validationFailed (validationErrors : List String)
  | sent (result : SendResult) (attemptsMade : Nat) (delays : List Nat)
  deriving DecidableEq, Repr

/-- `sendValidatedCallback`: validate first; only a session with no
validation errors reaches `sendCallback`. -/
def sendValidatedCallback (tryAttempt : Nat → Bool) (cfg : CallbackConfig)
    (s : Session) : ValidatedCallbackResult :=
  let errors := validateSessionData s
  if errors.isEmpty then
    let r := sendCallback tryAttempt cfg
    .sent r.1 r.2.1 r.2.2
  else
    .validationFailed errors

/-- Number of delivery attempts reaching the collector that a
`sendValidatedCallback` outcome records. -/
def deliveryAttempts : ValidatedCallbackResult → Nat
  | .validationFailed _ => 0
  | .sent _ attemptsMade _ => attemptsMade

/-! ## Server helpers (`server.js`, the main process-message handler) -/

/-- The detection step of the process-message handler: the agent is
activated when `detectionResult.isScam && !session.isAgentActive`. -/
def afterDetection (s : Session) (detectionIsScam : Bool) : Session :=
  if detectionIsScam && !s.isAgentActive then activateAgent s else s

/-- Whether a turn of the process-message handler reaches the
`shouldEndConversation` call: the call sits inside the
`if (session.isAgentActive)` branch entered after possible activation. -/
def terminationCheckReached (s : Session) (detectionIsScam : Bool) : Bool :=
  (afterDetection s detectionIsScam).isAgentActive

/-- `shouldEndConversation`: message cap 20; good intelligence (any bank
account, UPI id or phishing link, or more than one phone number) at 8 or
more messages; or an idle gap of more than 30 minutes
(`(now - lastActivity) / (1000 * 60) > 30` in real arithmetic). -/
def shouldEndConversation (s : Session) (now : Nat) : Bool :=
  let messageCount := s.messages.length
  if 20 ≤ messageCount then true
  else
    let hasGoodIntel :=
      decide (0 < s.intelligence.bankAccounts.length) ||
      decide (0 < s.intelligence.upiIds.length) ||
      decide (0 < s.intelligence.phishingLinks.length) ||
      decide (1 < s.intelligence.phoneNumbers.length)
    if hasGoodIntel && decide (8 ≤ messageCount) then true
    else
      let diffMinutes : ℚ := ((now : ℚ) - (s.lastActivity : ℚ)) / (1000 * 60)
      if 30 < diffMinutes then true else false

/-- The `sendFinalCallback` helper of the server: it builds a payload from
the session and delegates to `CallbackService.sendCallback`; the session
object itself is not modified anywhere in the helper. -/
def sendFinalCallback (tryAttempt : Nat → Bool) (cfg : CallbackConfig)
    (s : Session) : Session × SendResult :=
  (s, (sendCallback tryAttempt cfg).1)

/-- The termination path of the process-message handler:
`sendFinalCallback(session)` followed by `sessionManager.closeSession`,
which calls `session.end()`. -/
def terminationFlow (tryAttempt : Nat → Bool) (cfg : CallbackConfig)
    (s : Session) (now : Nat) : Session × SendResult :=
  let afterCallback := sendFinalCallback tryAttempt cfg s
  (endSession afterCallback.1 now, afterCallback.2)

/-! ## AIAgent conversation contexts (`src/core/AIAgent.js`) -/

/-- A conversation context as created by `getOrCreateContext`.  The object
literal has no `lastActivity` property and no statement in `AIAgent` ever
assigns one, so the field is an `Option` that starts out absent. -/
structure ConversationContext where
  id : String
  messageCount : Nat
  scammerMessageCount : Nat
  topicsDiscussed : List String
  informationRevealed : List String
  scammerTactics : List String
  lastResponseType : Option String
  emotionalState : String
  trustLevel : ℚ
  lastActivity : Option Nat
  deriving DecidableEq, Repr

/-- The context literal of `getOrCreateContext` (`trustLevel: 0.3`). -/
def newContext (sessionId : String) : ConversationContext :=
  { id := sessionId
    messageCount := 0
    scammerMessageCount := 0
    topicsDiscussed := []
    informationRevealed := []
    scammerTactics := []
    lastResponseType := none
    emotionalState := "neutral"
    trustLevel := 3/10
    lastActivity := none }

/-- The per-context test of `cleanupOldContexts`:
`now - context.lastActivity > maxAge` with `maxAge = 30 * 60 * 1000`.
When the property is absent the JS subtraction yields `NaN` and every
comparison against `NaN` is `false`. -/
def contextExpired (now : Nat) (c : ConversationContext) : Bool :=
  match c.lastActivity with
  | some t => decide ((30 * 60 * 1000 : ℤ) < (now : ℤ) - (t : ℤ))
  | none => false

/-- `cleanupOldContexts`: delete from the conversation memory every
context whose expiry test fires. -/
def cleanupOldContexts (now : Nat)
    (memory : List (String × ConversationContext)) :
    List (String × ConversationContext) :=
  memory.filter fun entry => !contextExpired now entry.2

/-! ## Auxiliary definitions used by claim statements and witnesses -/

/-- A matcher with no regex hits, usable to evaluate the model on
concrete inputs. -/
def trivialMatcher : Matcher :=
  { bankMatches := fun _ => []
    upiMatches := fun _ => []
    phoneMatches := fun _ => []
    urlMatches := fun _ => []
    emailMatches := fun _ => []
    cardMatches := fun _ => []
    ifscMatches := fun _ => []
    urlValid := fun _ => false }

/-- A matcher whose bank-account patterns hit one twelve-digit candidate,
usable to evaluate the extraction model on a concrete input. -/
def demoMatcher : Matcher :=
  { trivialMatcher with bankMatches := fun _ => ["123456789012"] }

/-- A concrete engaging session at the message cap, for evaluating the
termination check. -/
def demoEngagingSession : Session :=
  { newSession "scam-1" 0 with
      isAgentActive := true
      scamDetected := true
      messages := List.replicate 20 ⟨"scammer", "share your otp", 0⟩ }

/-- Characterisation of a masked financial-account value: a ten-character
"XXXX-XXXX-" mask followed by exactly four digits, fourteen characters in
total. -/
def isMaskedAccount (v : String) : Bool :=
  decide (v.data.take 10 = "XXXX-XXXX-".data) && decide (v.data.length = 14) &&
  (v.data.drop 10).all Char.isDigit

/-- Characterisation of a masked card value: a fifteen-character
"XXXX-XXXX-XXXX-" mask followed by exactly four digits, nineteen
characters in total. -/
def isMaskedCard (v : String) : Bool :=
  decide (v.data.take 15 = "XXXX-XXXX-XXXX-".data) && decide (v.data.length = 19) &&
  (v.data.drop 15).all Char.isDigit

/-! ## General lemmas about the JS `Set` model -/

theorem mem_of_mem_jsDedupAux {α : Type} [DecidableEq α] {x : α} :
    ∀ {l seen : List α}, x ∈ jsDedupAux seen l → x ∈ l := by
  intro l
  induction l with
  | nil => intro seen h; simp [jsDedupAux] at h
  | cons y ys ih =>
      intro seen h
      simp only [jsDedupAux] at h
      by_cases hy : y ∈ seen
      · simp [hy] at h
        exact List.mem_cons_of_mem _ (ih h)
      · simp [hy] at h
        rcases h with h | h
        · simp [h]
        · exact List.mem_cons_of_mem _ (ih h)

theorem not_mem_seen_of_mem_jsDedupAux {α : Type} [DecidableEq α] {x : α} :
    ∀ {l seen : List α}, x ∈ jsDedupAux seen l → x ∉ seen := by
  intro l
  induction l with
  | nil => intro seen h; simp [jsDedupAux] at h
  | cons y ys ih =>
      intro seen h
      simp only [jsDedupAux] at h
      by_cases hy : y ∈ seen
      · simp [hy] at h
        exact ih h
      · simp [hy] at h
        rcases h with h | h
        · subst h; exact hy
        · intro hx
          exact ih h (List.mem_cons_of_mem _ hx)

theorem nodup_jsDedupAux {α : Type} [DecidableEq α] :
    ∀ (l seen : List α), (jsDedupAux seen l).Nodup := by
  intro l
  induction l with
  | nil => intro seen; simp [jsDedupAux]
  | cons y ys ih =>
      intro seen
      simp only [jsDedupAux]
      by_cases hy : y ∈ seen
      · simp [hy]; exact ih seen
      · simp [hy]
        constructor
        · intro hmem
          exact not_mem_seen_of_mem_jsDedupAux hmem (List.mem_cons_self _ _)
        · exact ih (y :: seen)

theorem mem_jsDedup {α : Type} [DecidableEq α] {x : α} {l : List α}
    (h : x ∈ jsDedup l) : x ∈ l :=
  mem_of_mem_jsDedupAux h

theorem nodup_jsDedup {α : Type} [DecidableEq α] (l : List α) :
    (jsDedup l).Nodup :=
  nodup_jsDedupAux l []

theorem jsDedupAux_eq_nil {α : Type} [DecidableEq α] :
    ∀ {l seen : List α}, (∀ y ∈ l, y ∈ seen) → jsDedupAux seen l = [] := by
  intro l
  induction l with
  | nil => intro seen _; rfl
  | cons y ys ih =>
      intro seen h
      have hy : y ∈ seen := h y (List.mem_cons_self _ _)
      simp only [jsDedupAux, if_pos hy]
      exact ih fun z hz => h z (List.mem_cons_of_mem _ hz)

theorem jsDedupAux_append_of_nodup {α : Type} [DecidableEq α] :
    ∀ {l seen ys : List α}, l.Nodup → (∀ x ∈ l, x ∉ seen) →
      jsDedupAux seen (l ++ ys) = l ++ jsDedupAux (l.reverse ++ seen) ys := by
  intro l
  induction l with
  | nil => intro seen ys _ _; simp
  | cons a as ih =>
      intro seen ys hnd hfresh
      have ha : a ∉ seen := hfresh a (List.mem_cons_self _ _)
      have hstep : (a :: as) ++ ys = a :: (as ++ ys) := rfl
      rw [hstep]
      simp only [jsDedupAux, if_neg ha]
      have has : as.Nodup := (List.nodup_cons.mp hnd).2
      have hana : a ∉ as := (List.nodup_cons.mp hnd).1
      have hfresh2 : ∀ x ∈ as, x ∉ a :: seen := by
        intro x hx
        simp only [List.mem_cons, not_or]
        constructor
        · intro hxa; subst hxa; exact hana hx
        · exact hfresh x (List.mem_cons_of_mem _ hx)
      rw [ih has hfresh2]
      simp

theorem jsDedup_append_self {α : Type} [DecidableEq α] {l : List α}
    (h : l.Nodup) : jsDedup (l ++ l) = l := by
  unfold jsDedup
  rw [jsDedupAux_append_of_nodup h (by intro x _ hx; simp at hx)]
  rw [jsDedupAux_eq_nil (by intro y hy; simp [hy])]
  simp

/-! ## Claim C4: score combination and the single global threshold -/

/-- C4: the combined confidence is the weighted sum of the four detector
scores with fixed weights pattern 0.35, linguistic 0.25, statistical 0.25
and context 0.15, clamped to 1, and a message is classified as a scam
exactly when that confidence is at least the single global threshold
0.65. -/
theorem combined_score_weights_and_threshold
    (pattern nlp ml context : DetectorResult) :
    (calculateCombinedScore pattern nlp ml context).score =
      min ((35/100) * pattern.score + (25/100) * nlp.score +
           (25/100) * ml.score + (15/100) * context.score) 1 ∧
    (analyzeIsScam pattern nlp ml context = true ↔
      (65/100 : ℚ) ≤ (calculateCombinedScore pattern nlp ml context).score) := by
  constructor
  · show min _ 1 = min _ 1
    congr 1
    ring
  · simp [analyzeIsScam, confidenceThreshold]

/-! ## Claim C7: intent classification precedence -/

/-- C7 counterexample: the spec's precedence list omits the source's third
job-scam trigger "work from home", so on that text the code returns the
job-scam label while the claimed assignment returns the generic label. -/
theorem determineIntent_work_from_home_counterexample :
    determineIntent "work from home" [] = "job_scam" ∧
    specDetermineIntent "work from home" [] = "suspicious" ∧
    determineIntent "work from home" [] ≠ specDetermineIntent "work from home" [] := by
  refine ⟨by decide, by decide, ?_⟩
  intro h
  rw [show determineIntent "work from home" [] = "job_scam" from by decide,
      show specDetermineIntent "work from home" [] = "suspicious" from by decide] at h
  exact absurd h (by decide)

/-- C7 amended: the intent label is assigned by the claimed
first-match-wins precedence, with the job-scam rule additionally firing on
the phrase "work from home". -/
theorem determineIntent_matches_amended_precedence
    (text : String) (indicators : List String) :
    determineIntent text indicators = specDetermineIntentAmended text indicators :=
  rfl

/-! ## Claim C9: conversation-context idle cleanup -/

/-- C9: a conversation context created by `getOrCreateContext` is never
removed by `cleanupOldContexts`, no matter how long it has been idle: the
context literal carries no `lastActivity` property, so the age test
compares against `NaN` and is always false.  In particular a context that
has been idle for a full hour (twice the 30-minute window) survives every
cleanup pass, contradicting the claimed purge. -/
theorem cleanupOldContexts_removes_nothing (now : Nat) :
    contextExpired now (newContext "s1") = false ∧
    cleanupOldContexts now [("s1", newContext "s1")] = [("s1", newContext "s1")] :=
  ⟨rfl, rfl⟩

/-! ## Claim C6: the `callbackSent` flag -/

/-- C6: `callbackSent` starts false and is never assigned anywhere in the
code: the entire termination flow (final callback followed by session
closure) leaves it untouched, even when delivery succeeds.  The concrete
conjunct runs the flow on an engaged session with a successful delivery
oracle: the callback result reports success, yet `callbackSent` is still
false. -/
theorem callbackSent_never_becomes_true :
    (∀ (s : Session) (tryAttempt : Nat → Bool) (cfg : CallbackConfig) (now : Nat),
      ((terminationFlow tryAttempt cfg s now).1).callbackSent = s.callbackSent) ∧
    (∀ (id : String) (now : Nat), (newSession id now).callbackSent = false) ∧
    ((terminationFlow (fun _ => true) defaultCallbackConfig
        (activateAgent (addMessage (newSession "scam-1" 0) ⟨"scammer", "share otp", 0⟩ 0)) 5).2.success
        = true ∧
     (terminationFlow (fun _ => true) defaultCallbackConfig
        (activateAgent (addMessage (newSession "scam-1" 0) ⟨"scammer", "share otp", 0⟩ 0)) 5).1.callbackSent
        = false) :=
  ⟨fun _ _ _ _ => rfl, fun _ _ => rfl, rfl, rfl⟩

/-! ## Claim C10: the guard branches of `extract` -/

/-- C10: `extract` returns the empty intelligence value — every category
empty and risk score 0 — whenever the message list is empty or the joined
scammer-authored text is empty (the JS falsiness guard `!allText`); the
function is total, so nothing escapes to the caller. -/
theorem extract_empty_on_guard (m : Matcher) (messages : List Message)
    (h : messages = [] ∨ joinScammerText messages = "") :
    extract m messages = getEmptyIntelligence := by
  rcases h with h | h
  · subst h; rfl
  · unfold extract
    by_cases hm : messages.isEmpty
    · simp [hm]
    · simp [hm, h]


/-- C10 witness: a nonempty message list whose only message is
operator-authored has no scammer text, and `extract` returns the empty
intelligence on it. -/
theorem extract_empty_on_guard_witness :
    (([⟨"user", "hello", 0⟩] : List Message) = [] ∨
      joinScammerText [⟨"user", "hello", 0⟩] = "") ∧
    extract trivialMatcher [⟨"user", "hello", 0⟩] = getEmptyIntelligence :=
  ⟨Or.inr (by decide),
   extract_empty_on_guard trivialMatcher [⟨"user", "hello", 0⟩] (Or.inr (by decide))⟩

/-! ## Claim C1: the termination check -/

/-- C1: while a session is engaging (agent active) the process-message
handler reaches the termination check, and `shouldEndConversation` returns
true exactly when the message count is at least 20, or the count is at
least 8 and a bank account, UPI id or phishing link has been captured or
more than one phone number has been captured, or the idle gap since the
session's last activity exceeds 30 minutes; while the session stays
dormant (agent inactive and no scam detected this turn) the check is never
reached. -/
theorem shouldEndConversation_spec (s : Session) (now : Nat) (detectionIsScam : Bool) :
    (s.isAgentActive = true →
      terminationCheckReached s detectionIsScam = true ∧
      (shouldEndConversation s now = true ↔
        20 ≤ s.messages.length ∨
        (8 ≤ s.messages.length ∧
          (s.intelligence.bankAccounts ≠ [] ∨ s.intelligence.upiIds ≠ [] ∨
           s.intelligence.phishingLinks ≠ [] ∨ 1 < s.intelligence.phoneNumbers.length)) ∨
        (30 * 60 * 1000 : ℚ) < (now : ℚ) - (s.lastActivity : ℚ))) ∧
    (s.isAgentActive = false → detectionIsScam = false →
      terminationCheckReached s detectionIsScam = false) := by
  constructor
  · intro hactive
    constructor
    · simp [terminationCheckReached, afterDetection, hactive]
    · have hdiv : ∀ x : ℚ, (30 < x / (1000 * 60)) ↔ ((30 * 60 * 1000 : ℚ) < x) := by
        intro x
        rw [lt_div_iff₀ (by norm_num : (0:ℚ) < 1000 * 60)]
        constructor <;> intro h <;> linarith
      constructor
      · intro h
        simp only [shouldEndConversation] at h
        split_ifs at h with h20 hintel htime
        · exact Or.inl h20
        · simp only [Bool.and_eq_true, Bool.or_eq_true, decide_eq_true_eq] at hintel
          refine Or.inr (Or.inl ⟨hintel.2, ?_⟩)
          rcases hintel.1 with ((hB | hU) | hL) | hP
          · exact Or.inl (List.ne_nil_of_length_pos hB)
          · exact Or.inr (Or.inl (List.ne_nil_of_length_pos hU))
          · exact Or.inr (Or.inr (Or.inl (List.ne_nil_of_length_pos hL)))
          · exact Or.inr (Or.inr (Or.inr hP))
        · exact Or.inr (Or.inr ((hdiv _).mp htime))
      · intro hp
        simp only [shouldEndConversation]
        split_ifs with h20 hintel htime
        · rfl
        · rfl
        · rfl
        · exfalso
          rcases hp with hc | ⟨h8, hor⟩ | hc
          · exact h20 hc
          · apply hintel
            simp only [Bool.and_eq_true, Bool.or_eq_true, decide_eq_true_eq]
            refine ⟨?_, h8⟩
            rcases hor with hB | hU | hL | hP
            · exact Or.inl (Or.inl (Or.inl (List.length_pos_of_ne_nil hB)))
            · exact Or.inl (Or.inl (Or.inr (List.length_pos_of_ne_nil hU)))
            · exact Or.inl (Or.inr (List.length_pos_of_ne_nil hL))
            · exact Or.inr hP
          · exact htime ((hdiv _).mpr hc)
  · intro hinactive hscam
    simp [terminationCheckReached, afterDetection, hinactive, hscam]


/-- C1 witness: on a concrete engaging session with 20 messages the
handler reaches the termination check and the check fires, matching the
claimed disjunction. -/
theorem shouldEndConversation_spec_witness :
    demoEngagingSession.isAgentActive = true ∧
    (terminationCheckReached demoEngagingSession true = true ∧
     (shouldEndConversation demoEngagingSession 1000 = true ↔
       20 ≤ demoEngagingSession.messages.length ∨
       (8 ≤ demoEngagingSession.messages.length ∧
         (demoEngagingSession.intelligence.bankAccounts ≠ [] ∨
          demoEngagingSession.intelligence.upiIds ≠ [] ∨
          demoEngagingSession.intelligence.phishingLinks ≠ [] ∨
          1 < demoEngagingSession.intelligence.phoneNumbers.length)) ∨
       (30 * 60 * 1000 : ℚ) < (1000 : ℚ) - (demoEngagingSession.lastActivity : ℚ))) :=
  ⟨rfl, (shouldEndConversation_spec demoEngagingSession 1000 true).1 rfl⟩

/-! ## Claim C5: callback retry exhaustion -/

/-- When every attempt fails, each loop iteration fails, sleeps the fixed
delay whenever another attempt remains, and recurses; the invariant
`attempt + fuel = maxRetries + 1` ties the fuel to the loop bound. -/
theorem sendCallbackLoop_all_fail (tryAttempt : Nat → Bool) (cfg : CallbackConfig)
    (hfail : ∀ i, tryAttempt i = false) :
    ∀ (fuel attempt : Nat), attempt + fuel = cfg.maxRetries + 1 →
      sendCallbackLoop tryAttempt cfg attempt fuel =
        ({ success := false, attempts := cfg.maxRetries }, fuel,
          List.replicate (fuel - 1) cfg.retryDelay) := by
  intro fuel
  induction fuel with
  | zero => intro attempt _; rfl
  | succ g ih =>
      intro attempt hsum
      simp only [sendCallbackLoop, hfail attempt, Bool.false_eq_true, if_false]
      rw [ih (attempt + 1) (by omega)]
      rcases g with _ | g2
      · have hlt : ¬ attempt < cfg.maxRetries := by omega
        simp [hlt]
      · have hlt : attempt < cfg.maxRetries := by omega
        simp [hlt, List.replicate_succ]

/-- C5: a payload whose delivery fails on every attempt is retried exactly
`maxRetries` times (default 3), with one fixed `retryDelay` sleep between
each pair of consecutive attempts, and `sendCallback` returns (rather than
throws) a failed result whose `attempts` field reports that count. -/
theorem sendCallback_fails_after_max_attempts (cfg : CallbackConfig)
    (tryAttempt : Nat → Bool) (hpos : 1 ≤ cfg.maxRetries)
    (hfail : ∀ i, tryAttempt i = false) :
    sendCallback tryAttempt cfg =
      ({ success := false, attempts := cfg.maxRetries }, cfg.maxRetries,
        List.replicate (cfg.maxRetries - 1) cfg.retryDelay) ∧
    defaultCallbackConfig.maxRetries = 3 := by
  constructor
  · unfold sendCallback
    rw [sendCallbackLoop_all_fail tryAttempt cfg hfail cfg.maxRetries 1 (by omega)]
  · rfl

/-- C5 witness: with the default configuration and an always-failing
delivery oracle, the result is failure after exactly 3 attempts with two
inter-attempt delays. -/
theorem sendCallback_fails_after_max_attempts_witness :
    1 ≤ defaultCallbackConfig.maxRetries ∧
    (sendCallback (fun _ => false) defaultCallbackConfig =
      ({ success := false, attempts := defaultCallbackConfig.maxRetries },
        defaultCallbackConfig.maxRetries,
        List.replicate (defaultCallbackConfig.maxRetries - 1)
          defaultCallbackConfig.retryDelay) ∧
     defaultCallbackConfig.maxRetries = 3) :=
  ⟨by decide,
   sendCallback_fails_after_max_attempts defaultCallbackConfig (fun _ => false)
     (by decide) (fun _ => rfl)⟩

/-! ## Claim C8: the validation gate before callback delivery -/

/-- C8: a session failing any validation check (identifier missing, scam
not detected, or no messages recorded) makes `sendValidatedCallback`
return the non-retryable validation-failure result carrying the collected
errors, and the collector is never contacted (zero delivery attempts). -/
theorem sendValidatedCallback_gate (tryAttempt : Nat → Bool)
    (cfg : CallbackConfig) (s : Session)
    (h : s.id = "" ∨ s.scamDetected = false ∨ s.messages = []) :
    sendValidatedCallback tryAttempt cfg s =
      .validationFailed (validateSessionData s) ∧
    validateSessionData s ≠ [] ∧
    deliveryAttempts (sendValidatedCallback tryAttempt cfg s) = 0 := by
  have hne : validateSessionData s ≠ [] := by
    unfold validateSessionData
    rcases h with h | h | h
    · simp [h]
    · simp [h]
    · have hlen : s.messages.length = 0 := by simp [h]
      intro hcontra
      have := congrArg List.length hcontra
      simp [hlen] at this
  have hresult : sendValidatedCallback tryAttempt cfg s =
      .validationFailed (validateSessionData s) := by
    unfold sendValidatedCallback
    have : (validateSessionData s).isEmpty = false := by
      cases hval : validateSessionData s
      · exact absurd hval hne
      · rfl
    simp [this]
  refine ⟨hresult, hne, ?_⟩
  rw [hresult]
  rfl

/-- C8 witness: a fresh session with an empty identifier (also with no
scam flag and no messages) is rejected by the gate with all three errors
and zero collector contacts. -/
theorem sendValidatedCallback_gate_witness :
    ((newSession "" 0).id = "" ∨ (newSession "" 0).scamDetected = false ∨
      (newSession "" 0).messages = []) ∧
    (sendValidatedCallback (fun _ => true) defaultCallbackConfig (newSession "" 0) =
      .validationFailed (validateSessionData (newSession "" 0)) ∧
     validateSessionData (newSession "" 0) ≠ [] ∧
     deliveryAttempts
       (sendValidatedCallback (fun _ => true) defaultCallbackConfig (newSession "" 0)) = 0) :=
  ⟨Or.inl rfl,
   sendValidatedCallback_gate (fun _ => true) defaultCallbackConfig (newSession "" 0)
     (Or.inl rfl)⟩

/-! ## Claim C3: masking of financial values -/

theorem string_data_append (a b : String) : (a ++ b).data = a.data ++ b.data := by
  cases a
  cases b
  rfl

/-- Masking a validated account number yields a masked value: the ten
mask characters followed by the last four digits. -/
theorem masked_of_isAccountShape (acc : String) (h : isAccountShape acc = true) :
    isMaskedAccount (maskSensitiveData acc "account") = true := by
  simp only [isAccountShape, Bool.and_eq_true, decide_eq_true_eq] at h
  obtain ⟨⟨hdig, h9⟩, _⟩ := h
  have hlen : 9 ≤ acc.data.length := h9
  have hdata : (maskSensitiveData acc "account").data =
      "XXXX-XXXX-".data ++ acc.data.drop (acc.data.length - 4) := by
    unfold maskSensitiveData
    rw [if_pos rfl, string_data_append]
    rfl
  have hP : ("XXXX-XXXX-" : String).data.length = 10 := rfl
  unfold isMaskedAccount
  rw [hdata, List.take_left' hP, List.drop_left' hP]
  simp only [Bool.and_eq_true, decide_eq_true_eq]
  refine ⟨⟨trivial, ?_⟩, ?_⟩
  · rw [List.length_append, List.length_drop, hP]
    omega
  · rw [List.all_eq_true]
    intro c hc
    exact (List.all_eq_true.mp hdig) c (List.mem_of_mem_drop hc)

/-- Masking a Luhn-validated card number yields a masked value: the
fifteen mask characters followed by the last four digits. -/
theorem masked_of_validateLuhn (card : String) (h : validateLuhn card = true) :
    isMaskedCard (maskSensitiveData card "card") = true := by
  have hshape : card.data.all Char.isDigit = true ∧ 13 ≤ card.length := by
    unfold validateLuhn at h
    by_cases hg : (card.data.all Char.isDigit &&
        decide (13 ≤ card.length) && decide (card.length ≤ 19)) = true
    · simp only [Bool.and_eq_true, decide_eq_true_eq] at hg
      exact ⟨hg.1.1, hg.1.2⟩
    · have hb : (card.data.all Char.isDigit &&
          decide (13 ≤ card.length) && decide (card.length ≤ 19)) = false := by
        cases hx : (card.data.all Char.isDigit &&
            decide (13 ≤ card.length) && decide (card.length ≤ 19))
        · rfl
        · exact absurd hx hg
      rw [if_pos (by rw [hb]; rfl)] at h
      exact absurd h (by simp)
  obtain ⟨hdig, h13⟩ := hshape
  have hlen : 13 ≤ card.data.length := h13
  have hdata : (maskSensitiveData card "card").data =
      "XXXX-XXXX-XXXX-".data ++ card.data.drop (card.data.length - 4) := by
    unfold maskSensitiveData
    rw [if_neg (by decide), if_pos rfl, string_data_append]
    rfl
  have hP : ("XXXX-XXXX-XXXX-" : String).data.length = 15 := rfl
  unfold isMaskedCard
  rw [hdata, List.take_left' hP, List.drop_left' hP]
  simp only [Bool.and_eq_true, decide_eq_true_eq]
  refine ⟨⟨trivial, ?_⟩, ?_⟩
  · rw [List.length_append, List.length_drop, hP]
    omega
  · rw [List.all_eq_true]
    intro c hc
    exact (List.all_eq_true.mp hdig) c (List.mem_of_mem_drop hc)

/-- A masked value contains at most four digit characters in total. -/
theorem masked_digit_count (v : String)
    (h : isMaskedAccount v = true ∨ isMaskedCard v = true) :
    v.data.countP Char.isDigit ≤ 4 := by
  rcases h with h | h
  · simp only [isMaskedAccount, Bool.and_eq_true, decide_eq_true_eq] at h
    obtain ⟨⟨htake, hlen⟩, _⟩ := h
    have hsplit : v.data.countP Char.isDigit =
        (v.data.take 10).countP Char.isDigit + (v.data.drop 10).countP Char.isDigit := by
      conv_lhs => rw [← List.take_append_drop 10 v.data]
      exact List.countP_append _ _ _
    have h1 : (v.data.take 10).countP Char.isDigit = 0 := by
      rw [htake]
      decide
    have h2 : (v.data.drop 10).countP Char.isDigit ≤ 4 := by
      have := List.countP_le_length (l := v.data.drop 10) (p := Char.isDigit)
      rw [List.length_drop] at this
      omega
    omega
  · simp only [isMaskedCard, Bool.and_eq_true, decide_eq_true_eq] at h
    obtain ⟨⟨htake, hlen⟩, _⟩ := h
    have hsplit : v.data.countP Char.isDigit =
        (v.data.take 15).countP Char.isDigit + (v.data.drop 15).countP Char.isDigit := by
      conv_lhs => rw [← List.take_append_drop 15 v.data]
      exact List.countP_append _ _ _
    have h1 : (v.data.take 15).countP Char.isDigit = 0 := by
      rw [htake]
      decide
    have h2 : (v.data.drop 15).countP Char.isDigit ≤ 4 := by
      have := List.countP_le_length (l := v.data.drop 15) (p := Char.isDigit)
      rw [List.length_drop] at this
      omega
    omega

/-- C3: every value the extractor stores under financial accounts or card
numbers is masked to the "XXXX-…" shape exposing exactly the last four
digits; no full-length digit string (nine or more digits, the minimum
valid account length) can occur inside any masked value; the masked-ness
of both categories is preserved when the session accumulates new
intelligence; and the callback payload exposes exactly the session's
(masked) account list. -/
theorem masked_financial_values (m : Matcher) (text : String) :
    (∀ v ∈ extractBankAccounts m text, isMaskedAccount v = true) ∧
    (∀ v ∈ extractCardNumbers m text, isMaskedCard v = true) ∧
    (∀ v : String, isMaskedAccount v = true ∨ isMaskedCard v = true →
      ∀ orig : String, orig.data.all Char.isDigit = true → 9 ≤ orig.length →
        ∀ l1 l2 : List Char, v.data ≠ l1 ++ orig.data ++ l2) ∧
    (∀ old newIntel : Intelligence,
      (∀ v ∈ old.bankAccounts, isMaskedAccount v = true) →
      (∀ v ∈ newIntel.bankAccounts, isMaskedAccount v = true) →
      ∀ v ∈ (updateIntelligence old newIntel).bankAccounts, isMaskedAccount v = true) ∧
    (∀ old newIntel : Intelligence,
      (∀ v ∈ old.cardNumbers, isMaskedCard v = true) →
      (∀ v ∈ newIntel.cardNumbers, isMaskedCard v = true) →
      ∀ v ∈ (updateIntelligence old newIntel).cardNumbers, isMaskedCard v = true) ∧
    (∀ s : Session, (buildPayload s).bankAccounts = s.intelligence.bankAccounts) := by
  refine ⟨?_, ?_, ?_, ?_, ?_, fun _ => rfl⟩
  · intro v hv
    have hv2 := mem_jsDedup hv
    rw [List.mem_filterMap] at hv2
    obtain ⟨raw, _, hf⟩ := hv2
    by_cases hs : isAccountShape (stripWhitespace raw) = true
    · simp only [hs, if_true] at hf
      rw [Option.some_inj] at hf
      rw [← hf]
      exact masked_of_isAccountShape _ hs
    · simp [hs] at hf
  · intro v hv
    have hv2 := mem_jsDedup hv
    rw [List.mem_filterMap] at hv2
    obtain ⟨raw, _, hf⟩ := hv2
    by_cases hs : validateLuhn (stripSpaceDash raw) = true
    · simp only [hs, if_true] at hf
      rw [Option.some_inj] at hf
      rw [← hf]
      exact masked_of_validateLuhn _ hs
    · simp [hs] at hf
  · intro v h orig hdig hlen9 l1 l2 he
    have hcount : orig.data.countP Char.isDigit = orig.data.length := by
      rw [List.countP_eq_length]
      intro a ha
      exact (List.all_eq_true.mp hdig) a ha
    have hv4 := masked_digit_count v h
    rw [he, List.countP_append, List.countP_append] at hv4
    have hlen : 9 ≤ orig.data.length := hlen9
    omega
  · intro old newIntel hold hnew v hv
    have := mem_jsDedup hv
    rcases List.mem_append.mp this with h | h
    · exact hold v h
    · exact hnew v h
  · intro old newIntel hold hnew v hv
    have := mem_jsDedup hv
    rcases List.mem_append.mp this with h | h
    · exact hold v h
    · exact hnew v h

/-- C3 witness: a twelve-digit candidate account number is stored as
"XXXX-XXXX-9012" and satisfies the masked-value characterisation. -/
theorem masked_financial_values_witness :
    ("XXXX-XXXX-9012" ∈ extractBankAccounts demoMatcher "any text") ∧
    isMaskedAccount "XXXX-XXXX-9012" = true :=
  ⟨by decide,
   (masked_financial_values demoMatcher "any text").1 "XXXX-XXXX-9012" (by decide)⟩

/-! ## Claim C2: idempotent, recomputed merging -/

/-- The recomputed risk score of the empty intelligence is 0. -/
theorem calculateRiskScore_empty : calculateRiskScore getEmptyIntelligence = 0 := by
  unfold calculateRiskScore getEmptyIntelligence
  norm_num [jsRound]

/-- Merging an intelligence value with duplicate-free categories and a
risk score computed from its own content with itself returns it
unchanged: the merge deduplicates each doubled category back to the
original and recomputes the same risk score from it. -/
theorem mergeIntelligence_pair_self (i : Intelligence)
    (h1 : i.bankAccounts.Nodup) (h2 : i.upiIds.Nodup)
    (h3 : i.phoneNumbers.Nodup) (h4 : i.phishingLinks.Nodup)
    (h5 : i.emails.Nodup) (h6 : i.cardNumbers.Nodup)
    (h7 : i.ifscCodes.Nodup) (h8 : i.suspiciousKeywords.Nodup)
    (h9 : i.credentialRequests.Nodup)
    (hrisk : i.riskScore = calculateRiskScore i) :
    mergeIntelligence [i, i] = i := by
  obtain ⟨b, u, p, l, e, c, f, k, r, rs⟩ := i
  simp only [mergeIntelligence, List.foldl, getEmptyIntelligence, List.nil_append]
  simp only at h1 h2 h3 h4 h5 h6 h7 h8 h9
  rw [jsDedup_append_self h1, jsDedup_append_self h2, jsDedup_append_self h3,
      jsDedup_append_self h4, jsDedup_append_self h5, jsDedup_append_self h6,
      jsDedup_append_self h7, jsDedup_append_self h8, jsDedup_append_self h9]
  simp only [Intelligence.mk.injEq, true_and]
  exact hrisk.symm

/-- C2: merging an extraction result with itself yields the very same
intelligence value — identical contents in every category and an
identical risk score — because every category of an extraction result is
already deduplicated and the merge recomputes the risk score from the
merged categories rather than summing the previously computed input scores. -/
theorem extract_merge_self_idempotent (m : Matcher) (messages : List Message) :
    mergeIntelligence [extract m messages, extract m messages] = extract m messages := by
  by_cases hm : messages.isEmpty
  · have he : extract m messages = getEmptyIntelligence := by
      unfold extract
      rw [if_pos hm]
    rw [he]
    exact mergeIntelligence_pair_self getEmptyIntelligence List.nodup_nil
      List.nodup_nil List.nodup_nil List.nodup_nil List.nodup_nil List.nodup_nil
      List.nodup_nil List.nodup_nil List.nodup_nil calculateRiskScore_empty.symm
  · by_cases ht : joinScammerText messages = ""
    · have he : extract m messages = getEmptyIntelligence := by
        unfold extract
        rw [if_neg (by simp [hm]), if_pos ht]
      rw [he]
      exact mergeIntelligence_pair_self getEmptyIntelligence List.nodup_nil
        List.nodup_nil List.nodup_nil List.nodup_nil List.nodup_nil List.nodup_nil
        List.nodup_nil List.nodup_nil List.nodup_nil calculateRiskScore_empty.symm
    · have he : extract m messages =
          { bankAccounts := extractBankAccounts m (joinScammerText messages)
            upiIds := extractUPIIds m (joinScammerText messages)
            phoneNumbers := extractPhoneNumbers m (joinScammerText messages)
            phishingLinks := extractURLs m (joinScammerText messages)
            emails := extractEmails m (joinScammerText messages)
            cardNumbers := extractCardNumbers m (joinScammerText messages)
            ifscCodes := extractIFSCCodes m (joinScammerText messages)
            suspiciousKeywords := extractSuspiciousKeywords (joinScammerText messages)
            credentialRequests := detectCredentialRequests (joinScammerText messages)
            riskScore := calculateRiskScore
              { bankAccounts := extractBankAccounts m (joinScammerText messages)
                upiIds := extractUPIIds m (joinScammerText messages)
                phoneNumbers := extractPhoneNumbers m (joinScammerText messages)
                phishingLinks := extractURLs m (joinScammerText messages)
                emails := extractEmails m (joinScammerText messages)
                cardNumbers := extractCardNumbers m (joinScammerText messages)
                ifscCodes := extractIFSCCodes m (joinScammerText messages)
                suspiciousKeywords := extractSuspiciousKeywords (joinScammerText messages)
                credentialRequests := detectCredentialRequests (joinScammerText messages)
                riskScore := 0 } } := by
        unfold extract
        rw [if_neg (by simp [hm]), if_neg ht]
      rw [he]
      apply mergeIntelligence_pair_self
      · exact nodup_jsDedup _
      · exact nodup_jsDedup _
      · exact nodup_jsDedup _
      · exact nodup_jsDedup _
      · exact nodup_jsDedup _
      · exact nodup_jsDedup _
      · exact nodup_jsDedup _
      · exact nodup_jsDedup _
      · exact nodup_jsDedup _
      · rfl

end Honeypot
